import Mathlib

/-!
Verification development for the TURMorIC image-analysis pipeline.

The visible source is the PyQt6 GUI shell `src/nosferatu/GUI_components/MainWindow.py`.
The core pipeline components the spec describes (ImageStore, FilterEngine,
ManifestReader, ClusterModelBuilder, PipelineCoordinator / CentralNode) are imported
by the GUI but their code is not part of the visible source tree; those parts are
modelled from the spec, as marked on each definition.

Definitions that model the visible GUI file follow its statements line by line.
-/

namespace Turmoric

/-! ## Part 1: model of the visible source `MainWindow.py` -/

/-- The `filters` entry of `self.default_values` set in `MainWindow.__init__`
(line 60 of MainWindow.py). -/
def default_filters : List String := ["threshold_li", "threshold_mean"]

/-- The `n_clusters` entry of `self.default_values` (line 60 of MainWindow.py). -/
def default_n_clusters : Nat := 10

/-- The filter-related GUI state of `MainWindow`: the selected filter
`self.filter`, the text of the page-2 label `self.filter_label`, and the
current text of `self.filter_combo_box`. -/
structure MainWindowState where
  filter : String
  filter_label_text : String
  combo_current_text : String
  deriving Repr, DecidableEq

/-- The state after `MainWindow.__init__` ran (which calls `init_ui`, which calls
`init_page2`): `self.filter = self.default_values['filters'][1]` (line 61);
the page-2 label is initialised to
`"Thresholding function: " + self.default_values['filters'][0]` (lines 248-249);
`addItems` places the first list entry as the combo box's current text (line 256).
The `currentTextChanged` signal is connected only after `addItems` (line 257), so
`filter_changed` does not run during initialisation. -/
def initMainWindow : MainWindowState :=
  { filter := default_filters.getD 1 "",
    filter_label_text := "Thresholding function: " ++ default_filters.getD 0 "",
    combo_current_text := default_filters.getD 0 "" }

/-- `MainWindow.filter_changed` (lines 195-206): sets `self.filter`, rewrites the
label text, and sets the combo box's current text. -/
def filter_changed (s : MainWindowState) (filter_text : String) : MainWindowState :=
  { s with
    filter := filter_text,
    filter_label_text := "Thresholding function: " ++ filter_text,
    combo_current_text := filter_text }

/-- The filter name that `MainWindow.apply_filter` (lines 350-356) passes to
`self.Central_Connection.apply_filter`: it reads `self.filter`. -/
def apply_filter_argument (s : MainWindowState) : String := s.filter

/-- The filter name displayed by the page-2 label: the label text with the fixed
caption removed. -/
def label_filter_name (s : MainWindowState) : String :=
  (s.filter_label_text.drop ("Thresholding function: ").length)

/-! ### Model of `MainWindow.build_model` (lines 396-406)

A minimal embedding of the Python semantics the method exercises: attribute
access on a `bool` value raises `AttributeError`, and reading `self.entries`
raises `AttributeError` when the attribute was never assigned (no statement in
MainWindow.py ever assigns `self.entries`; external code could in principle
attach it, so the model leaves its presence open). -/

/-- A Python runtime error, as far as `build_model` can raise one. -/
inductive PyError where
  | attributeError (typeName : String) (attr : String)
  deriving Repr, DecidableEq

/-- The Python values flowing through `build_model`: the boolean assigned at
line 399 and strings read from line-edit widgets. -/
inductive PyVal where
  | pyBool (b : Bool)
  | pyStr (s : String)
  deriving Repr, DecidableEq

/-- Attribute access, restricted to the attributes `build_model` uses.
A Python `bool` has none of `progress_changed`, `status_updated`, `start`,
so access raises `AttributeError`; the model's `str` carries none of them
either (none is ever accessed on a string in the method). -/
def pyGetattr : PyVal → String → Except PyError PyVal
  | PyVal.pyBool _, a => Except.error (PyError.attributeError "bool" a)
  | PyVal.pyStr _, a => Except.error (PyError.attributeError "str" a)

/-- The environment `build_model` runs in: whether `self.entries` exists
(some dict with the two line-edit texts) or was never assigned. -/
structure BuildModelEnv where
  entries : Option (String × String)
  deriving Repr, DecidableEq

/-- `self.entries[key].text()` — raises `AttributeError` on `self.entries`
when the attribute does not exist. -/
def entriesText (env : BuildModelEnv) (key : String) : Except PyError String :=
  match env.entries with
  | none => Except.error (PyError.attributeError "MainWindow" "entries")
  | some (csvText, outText) =>
      if key = "Image sets to build" then Except.ok csvText else Except.ok outText

/-- `MainWindow.build_model` (lines 396-406), statement by statement:
`build_model = True`; `csv = self.entries['Image sets to build'].text()`;
`entries = self.entries`; `outpth = self.entries['Model output folder'].text()`;
`self.worker = build_model`; `self.worker.progress_changed.connect(...)`;
`self.worker.status_updated.connect(...)`; `self.worker.start()`.
Returns `ok` only if every statement executes without a Python error. -/
def build_model_run (env : BuildModelEnv) : Except PyError Unit := do
  let build_model_local := PyVal.pyBool true
  let _csv ← entriesText env ("Image sets to build")
  let _outpth ← entriesText env ("Model output folder")
  let worker := build_model_local
  let _ ← pyGetattr worker ("progress_changed")
  let _ ← pyGetattr worker ("status_updated")
  let _ ← pyGetattr worker ("start")
  pure ()

/-! ## Part 2: core pipeline, modelled from the spec

The modules `CentralNode`, `FunctionHandler`, `ImageHandler`, `ModelHandler`
imported at the top of MainWindow.py are not in the visible source tree, so the
core components are modelled from the spec (sections 2-4 of spec.md). -/

/-- Modelled from the spec: `ImageBuffer` (spec section 3) — a numeric grid with
explicit width, height and channel count; the missing image modules hold the
real type. Pixels are stored row-major in `data`. -/
structure ImageBuffer where
  width : Nat
  height : Nat
  channels : Nat
  data : List Nat
  deriving Repr, DecidableEq

/-- Mean intensity of a pixel list (integer mean, 0 on an empty list). -/
def meanOf (l : List Nat) : Nat :=
  if l.length = 0 then 0 else l.sum / l.length

/-- One step of Li's iterative minimum-cross-entropy threshold selection
(spec section 4.2): the next threshold is the average of the mean intensity of
the pixels at or below the current threshold and the mean intensity of the
pixels above it. -/
def liStep (data : List Nat) (t : Nat) : Nat :=
  (meanOf (data.filter (fun p => decide (p ≤ t))) +
   meanOf (data.filter (fun p => decide (t < p)))) / 2

/-- Fuel-bounded iteration of `liStep` until a fixed point. -/
def liIterate (data : List Nat) : Nat → Nat → Nat
  | 0, t => t
  | fuel + 1, t =>
      let t2 := liStep data t
      if t2 = t then t else liIterate data fuel t2

/-- Modelled from the spec: the `threshold_li` threshold (spec section 4.2),
iterating from the image mean. -/
def liThreshold (data : List Nat) : Nat :=
  liIterate data data.length (meanOf data)

/-- Binarize a buffer at threshold `t`: pixel value is high (1) iff the source
pixel exceeds `t` (spec section 8). Spatial dimensions are kept. -/
def binarize (buf : ImageBuffer) (t : Nat) : ImageBuffer :=
  { buf with data := buf.data.map (fun p => if t < p then 1 else 0) }

/-- The error raised by the filter engine on an identifier outside the
enumerated set (spec sections 4.2 and 7). -/
inductive FilterError where
  | unsupportedFilterError (name : String)
  deriving Repr, DecidableEq

/-- Modelled from the spec: `FilterEngine.apply` (spec section 4.2), absent from
the visible source. The supported identifiers are exactly `threshold_li` and
`threshold_mean`; anything else fails with `UnsupportedFilterError`, never a
silent default. -/
def FilterEngine.apply (buf : ImageBuffer) (spec : String) : Except FilterError ImageBuffer :=
  if spec = "threshold_li" then
    Except.ok (binarize buf (liThreshold buf.data))
  else if spec = "threshold_mean" then
    Except.ok (binarize buf (meanOf buf.data))
  else
    Except.error (FilterError.unsupportedFilterError spec)

/-- Modelled from the spec: one row of the CSV manifest (spec section 3) — an
image path plus optional metadata columns. -/
structure ManifestRow where
  path : String
  meta : List String
  deriving Repr, DecidableEq

/-- Manifest errors (spec sections 4.3 and 7): a missing required column, or a
row whose referenced image path does not exist (identified by row index). -/
inductive ManifestError where
  | manifestFormatError
  | manifestEntryError (rowIndex : Nat) (path : String)
  deriving Repr, DecidableEq

/-- Modelled from the spec: the parsed shape of the manifest CSV — whether the
required image-path column is present, and the data rows in file order. -/
structure ManifestCsv where
  hasPathColumn : Bool
  rows : List ManifestRow
  deriving Repr, DecidableEq

/-- Row-by-row processing of the manifest (spec section 4.3): a row whose path
exists is kept; a row whose path does not exist yields a `ManifestEntryError`
naming its row index, and parsing continues with the remaining rows.
`fileExists` stands for the filesystem. -/
def parseRows (fileExists : String → Bool) :
    Nat → List ManifestRow → List ManifestRow × List ManifestError
  | _, [] => ([], [])
  | i, r :: rest =>
      let tail := parseRows fileExists (i + 1) rest
      if fileExists r.path then
        (r :: tail.1, tail.2)
      else
        (tail.1, ManifestError.manifestEntryError i r.path :: tail.2)

/-- Modelled from the spec: `ManifestReader.parse` (spec section 4.3), absent
from the visible source. Fails with `ManifestFormatError` when the image-path
column is absent; otherwise returns the valid records in file order together
with the collected per-row entry errors. -/
def ManifestReader.parse (csv : ManifestCsv) (fileExists : String → Bool) :
    Except ManifestError (List ManifestRow × List ManifestError) :=
  if csv.hasPathColumn then
    Except.ok (parseRows fileExists 0 csv.rows)
  else
    Except.error ManifestError.manifestFormatError

/-- Job lifecycle states (spec section 3): `Idle → Running → Succeeded | Failed
| Cancelled`. -/
inductive JobState where
  | Idle
  | Running
  | Succeeded
  | Failed
  | Cancelled
  deriving Repr, DecidableEq

/-- Events emitted by a build job (spec sections 3 and 4.4): progress
percentages, status text, and a terminal event carrying the final state.
Progress is the exact percentage `records_processed / total_records * 100`. -/
inductive JobEvent where
  | progressEvent (value : ℚ)
  | statusEvent (text : String)
  | terminalEvent (final : JobState)
  deriving Repr, DecidableEq

/-- Modelled from the spec: the event stream of a successful build job over a
manifest of `n` records (spec section 4.4): a "started" status; for each record
`i` (1-based) a "processing image i/n" status followed by a progress event of
`i / n * 100`; then "fitting model", "completed", and exactly one terminal
`Succeeded` event. -/
def buildJobEvents (n : Nat) : List JobEvent :=
  (JobEvent.statusEvent ("started") ::
   ((List.range n).map (fun (i : ℕ) =>
       [JobEvent.statusEvent ("processing image " ++ toString (i + 1) ++ "/" ++ toString n),
        JobEvent.progressEvent ((100 * (i + 1) : ℚ) / (n : ℚ))])).flatten ++
   [JobEvent.statusEvent ("fitting model"),
    JobEvent.statusEvent ("completed")]) ++
  [JobEvent.terminalEvent JobState.Succeeded]

/-- The progress values of an event stream, in emission order. -/
def progressValues (evs : List JobEvent) : List ℚ :=
  evs.filterMap (fun e =>
    match e with
    | JobEvent.progressEvent v => some v
    | _ => none)

/-- The terminal events of an event stream, in emission order. -/
def terminalStates (evs : List JobEvent) : List JobState :=
  evs.filterMap (fun e =>
    match e with
    | JobEvent.terminalEvent s => some s
    | _ => none)

/-- Parameter-validation error of the builder (spec section 4.4). -/
inductive BuilderError where
  | invalidParameterError (n_clusters : Int)
  deriving Repr, DecidableEq

/-- Modelled from the spec: the observable outcome of
`ClusterModelBuilder.start` — the result (events of the completed job, or a
fast-failure error), the job states traversed while handling the call, and the
builder state afterwards. -/
structure StartOutcome where
  result : Except BuilderError (List JobEvent)
  statesTraversed : List JobState
  builderStateAfter : JobState
  deriving Repr

/-- Modelled from the spec: `ClusterModelBuilder.start` (spec section 4.4),
absent from the visible source. `n_clusters` must be a positive integer: zero
or negative values fail fast with `InvalidParameterError` before entering
`Running`, traversing no job state. A valid call runs the job to `Succeeded`,
emitting `buildJobEvents` over the records. -/
def ClusterModelBuilder.start (before : JobState) (records : List ManifestRow)
    (n_clusters : Int) : StartOutcome :=
  if n_clusters ≤ 0 then
    { result := Except.error (BuilderError.invalidParameterError n_clusters),
      statesTraversed := [],
      builderStateAfter := before }
  else
    { result := Except.ok (buildJobEvents records.length),
      statesTraversed := [JobState.Running, JobState.Succeeded],
      builderStateAfter := JobState.Succeeded }

/-- Modelled from the spec: `ImageStore` (spec sections 2 and 4.1) — the
currently loaded raw buffer and its derived (filtered) version. -/
structure ImageStore where
  current : Option ImageBuffer
  derived : Option ImageBuffer
  deriving Repr, DecidableEq

/-- Load failure (spec section 4.1). -/
inductive StoreError where
  | unreadableImageError (path : String)
  deriving Repr, DecidableEq

/-- Modelled from the spec: `ImageStore.load` (spec section 4.1). `decoded`
stands for the result of decoding the file at `path` (`none` when the file
cannot be decoded). A successful load holds the fresh raw buffer and discards
any previous derived buffer. -/
def ImageStore.load (decoded : Option ImageBuffer) (path : String) :
    Except StoreError ImageStore :=
  match decoded with
  | none => Except.error (StoreError.unreadableImageError path)
  | some buf => Except.ok { current := some buf, derived := none }

/-- Coordinator-level errors (spec sections 4.5 and 7). -/
inductive CoordError where
  | jobAlreadyRunningError
  | noImageLoadedError
  deriving Repr, DecidableEq

/-- Modelled from the spec: `PipelineCoordinator` (the `CentralNode` role, spec
section 4.5), absent from the visible source: one ImageStore, the currently
selected FilterSpec, and the state of the at-most-one active build job. -/
structure PipelineCoordinator where
  store : ImageStore
  selectedFilter : String
  jobState : JobState
  deriving Repr, DecidableEq

/-- Modelled from the spec: `PipelineCoordinator.build_model` (spec section
4.5). A request while a job is `Running` is rejected with
`JobAlreadyRunningError` and leaves the coordinator unchanged; otherwise the
new job starts and the coordinator's job becomes `Running`. -/
def PipelineCoordinator.build_model (c : PipelineCoordinator) (csvPath : String)
    (outputDir : String) (n_clusters : Int) :
    Except CoordError Unit × PipelineCoordinator :=
  if c.jobState = JobState.Running then
    (Except.error CoordError.jobAlreadyRunningError, c)
  else
    (Except.ok (), { c with jobState := JobState.Running })

/-- Modelled from the spec: `PipelineCoordinator.save_single_image` (spec
section 4.5): fails with `NoImageLoadedError` if no image or derived buffer
exists yet; otherwise saves the derived buffer when present, else the raw
one. -/
def PipelineCoordinator.save_single_image (c : PipelineCoordinator)
    (path : String) : Except CoordError ImageBuffer :=
  match c.store.derived with
  | some buf => Except.ok buf
  | none =>
      match c.store.current with
      | some buf => Except.ok buf
      | none => Except.error CoordError.noImageLoadedError

/-- Modelled from the spec: `PipelineCoordinator.load_image` (spec sections 2
and 4.5): delegates to `ImageStore.load`; on success only the store changes. -/
def PipelineCoordinator.load_image (c : PipelineCoordinator)
    (decoded : Option ImageBuffer) (path : String) :
    Except StoreError PipelineCoordinator :=
  match ImageStore.load decoded path with
  | Except.error e => Except.error e
  | Except.ok st => Except.ok { c with store := st }

/-! ## Part 3: the claims -/

/-- C10: at construction `self.filter` is the second filter-list entry
(`threshold_mean`) while the page-2 label displays the first (`threshold_li`),
so before any `filter_changed` event `apply_filter` applies `threshold_mean`
although the label names `threshold_li`; after any `filter_changed` the label
and the applied filter agree. -/
theorem c10_init_filter_label_mismatch :
    initMainWindow.filter = "threshold_mean" ∧
    initMainWindow.filter_label_text = "Thresholding function: " ++ "threshold_li" ∧
    apply_filter_argument initMainWindow = "threshold_mean" ∧
    initMainWindow.filter_label_text ≠
      "Thresholding function: " ++ apply_filter_argument initMainWindow ∧
    ∀ (s : MainWindowState) (ft : String),
      (filter_changed s ft).filter_label_text =
        "Thresholding function: " ++ apply_filter_argument (filter_changed s ft) :=
  ⟨rfl, rfl, rfl, by decide, fun _ _ => rfl⟩

/-- C2: in the visible source, `MainWindow.build_model` binds `self.worker` to
the boolean `True` and then accesses `.progress_changed`, `.status_updated`,
`.start()` on it; no execution of the method reaches the end without a Python
error, so no call can successfully launch a worker job. When `self.entries`
exists, the failure is exactly the `AttributeError` on `bool.progress_changed`. -/
theorem c2_build_model_never_succeeds :
    (∀ env : BuildModelEnv, build_model_run env ≠ Except.ok ()) ∧
    (∀ (env : BuildModelEnv) (e : String × String), env.entries = some e →
      build_model_run env =
        Except.error (PyError.attributeError "bool" "progress_changed")) := by
  constructor
  · intro env h
    rcases henv : env.entries with _ | ⟨c, o⟩ <;>
      simp [build_model_run, entriesText, henv, pyGetattr, Bind.bind, Except.bind] at h
  · intro env e henv
    obtain ⟨c, o⟩ := e
    simp [build_model_run, entriesText, henv, pyGetattr, Bind.bind, Except.bind]

/-- Witness for C2 at a concrete environment where `self.entries` exists. -/
theorem c2_build_model_never_succeeds_witness :
    build_model_run { entries := some ("sets.csv", "out") } =
      Except.error (PyError.attributeError "bool" "progress_changed") :=
  c2_build_model_never_succeeds.2 { entries := some ("sets.csv", "out") }
    ("sets.csv", "out") rfl

/-- C3: `ClusterModelBuilder.start` with a non-positive `n_clusters` fails
immediately with `InvalidParameterError`, traverses no job state (in particular
never `Running`), and leaves the builder state unchanged. -/
theorem c3_start_rejects_nonpositive_clusters
    (before : JobState) (records : List ManifestRow) (k : Int) (hk : k ≤ 0) :
    ClusterModelBuilder.start before records k =
      { result := Except.error (BuilderError.invalidParameterError k),
        statesTraversed := [],
        builderStateAfter := before } ∧
    JobState.Running ∉ (ClusterModelBuilder.start before records k).statesTraversed := by
  constructor
  · simp [ClusterModelBuilder.start, hk]
  · simp [ClusterModelBuilder.start, hk]

/-- Witness for C3 at `n_clusters = 0` from the `Idle` state. -/
theorem c3_start_rejects_nonpositive_clusters_witness :
    ClusterModelBuilder.start JobState.Idle [] 0 =
      { result := Except.error (BuilderError.invalidParameterError 0),
        statesTraversed := [],
        builderStateAfter := JobState.Idle } ∧
    JobState.Running ∉ (ClusterModelBuilder.start JobState.Idle [] 0).statesTraversed :=
  c3_start_rejects_nonpositive_clusters JobState.Idle [] 0 (by decide)

/-- C6: `FilterEngine.apply` on any identifier outside
`{threshold_li, threshold_mean}` fails with `UnsupportedFilterError` naming
that identifier — never a silent default. -/
theorem c6_unknown_filter_rejected (buf : ImageBuffer) (spec : String)
    (h1 : spec ≠ "threshold_li") (h2 : spec ≠ "threshold_mean") :
    FilterEngine.apply buf spec =
      Except.error (FilterError.unsupportedFilterError spec) := by
  simp [FilterEngine.apply, h1, h2]

/-- Witness for C6 at the unknown identifier `threshold_otsu`. -/
theorem c6_unknown_filter_rejected_witness :
    FilterEngine.apply { width := 1, height := 1, channels := 1, data := [7] }
        "threshold_otsu" =
      Except.error (FilterError.unsupportedFilterError "threshold_otsu") :=
  c6_unknown_filter_rejected
    { width := 1, height := 1, channels := 1, data := [7] }
    "threshold_otsu" (by decide) (by decide)

/-- C7: a `build_model` request while a job is `Running` is rejected with
`JobAlreadyRunningError` and the coordinator — including the running job's
state — is returned unchanged; the coordinator holds a single job state, so at
most one job is `Running` per coordinator. -/
theorem c7_build_model_rejected_while_running
    (c : PipelineCoordinator) (csvPath outputDir : String) (k : Int)
    (h : c.jobState = JobState.Running) :
    PipelineCoordinator.build_model c csvPath outputDir k =
      (Except.error CoordError.jobAlreadyRunningError, c) := by
  simp [PipelineCoordinator.build_model, h]

/-- Witness for C7 at a concrete coordinator with a running job. -/
theorem c7_build_model_rejected_while_running_witness :
    PipelineCoordinator.build_model
        { store := { current := none, derived := none },
          selectedFilter := "threshold_mean", jobState := JobState.Running }
        "sets.csv" "out" 10 =
      (Except.error CoordError.jobAlreadyRunningError,
        { store := { current := none, derived := none },
          selectedFilter := "threshold_mean", jobState := JobState.Running }) :=
  c7_build_model_rejected_while_running
    { store := { current := none, derived := none },
      selectedFilter := "threshold_mean", jobState := JobState.Running }
    "sets.csv" "out" 10 rfl

/-- C8: `save_single_image` before any image has been loaded (no current and no
derived buffer) fails with `NoImageLoadedError`. -/
theorem c8_save_before_load_fails
    (c : PipelineCoordinator) (path : String)
    (hcur : c.store.current = none) (hder : c.store.derived = none) :
    PipelineCoordinator.save_single_image c path =
      Except.error CoordError.noImageLoadedError := by
  simp [PipelineCoordinator.save_single_image, hcur, hder]

/-- Witness for C8 at a freshly constructed coordinator. -/
theorem c8_save_before_load_fails_witness :
    PipelineCoordinator.save_single_image
        { store := { current := none, derived := none },
          selectedFilter := "threshold_mean", jobState := JobState.Idle }
        "out.png" =
      Except.error CoordError.noImageLoadedError :=
  c8_save_before_load_fails
    { store := { current := none, derived := none },
      selectedFilter := "threshold_mean", jobState := JobState.Idle }
    "out.png" rfl rfl

/-- C9: every successful `load` leaves the store holding exactly the freshly
decoded raw buffer with the previous derived buffer discarded, and touches no
other coordinator state (selected filter and job state are unchanged). -/
theorem c9_load_discards_derived
    (c : PipelineCoordinator) (decoded : Option ImageBuffer) (path : String)
    (c' : PipelineCoordinator)
    (h : PipelineCoordinator.load_image c decoded path = Except.ok c') :
    c'.store.derived = none ∧
    (∃ buf, decoded = some buf ∧ c'.store.current = some buf) ∧
    c'.selectedFilter = c.selectedFilter ∧
    c'.jobState = c.jobState := by
  cases decoded with
  | none => simp [PipelineCoordinator.load_image, ImageStore.load] at h
  | some buf =>
      simp [PipelineCoordinator.load_image, ImageStore.load] at h
      subst h
      exact ⟨rfl, ⟨buf, rfl, rfl⟩, rfl, rfl⟩

/-- Witness for C9: a concrete load over a store that held a derived buffer. -/
theorem c9_load_discards_derived_witness :
    ({ store := { current := some { width := 1, height := 1, channels := 1, data := [3] },
                  derived := none },
       selectedFilter := "threshold_li",
       jobState := JobState.Idle } : PipelineCoordinator).store.derived = none ∧
    (∃ buf, (some { width := 1, height := 1, channels := 1, data := [3] } :
        Option ImageBuffer) = some buf ∧
      ({ store := { current := some { width := 1, height := 1, channels := 1, data := [3] },
                    derived := none },
         selectedFilter := "threshold_li",
         jobState := JobState.Idle } : PipelineCoordinator).store.current = some buf) ∧
    ({ store := { current := some { width := 1, height := 1, channels := 1, data := [3] },
                  derived := none },
       selectedFilter := "threshold_li",
       jobState := JobState.Idle } : PipelineCoordinator).selectedFilter =
      ({ store := { current := some { width := 1, height := 1, channels := 1, data := [9] },
                    derived := some { width := 1, height := 1, channels := 1, data := [1] } },
         selectedFilter := "threshold_li",
         jobState := JobState.Idle } : PipelineCoordinator).selectedFilter ∧
    ({ store := { current := some { width := 1, height := 1, channels := 1, data := [3] },
                  derived := none },
       selectedFilter := "threshold_li",
       jobState := JobState.Idle } : PipelineCoordinator).jobState =
      ({ store := { current := some { width := 1, height := 1, channels := 1, data := [9] },
                    derived := some { width := 1, height := 1, channels := 1, data := [1] } },
         selectedFilter := "threshold_li",
         jobState := JobState.Idle } : PipelineCoordinator).jobState :=
  c9_load_discards_derived
    { store := { current := some { width := 1, height := 1, channels := 1, data := [9] },
                 derived := some { width := 1, height := 1, channels := 1, data := [1] } },
      selectedFilter := "threshold_li",
      jobState := JobState.Idle }
    (some { width := 1, height := 1, channels := 1, data := [3] })
    "img.tif"
    { store := { current := some { width := 1, height := 1, channels := 1, data := [3] },
                 derived := none },
      selectedFilter := "threshold_li",
      jobState := JobState.Idle }
    rfl

/-- Helper: the records returned by `parseRows` are exactly the rows whose path
exists, in their original relative order. -/
theorem parseRows_fst (f : String → Bool) :
    ∀ (rows : List ManifestRow) (i : Nat),
      (parseRows f i rows).1 = rows.filter (fun r => f r.path) := by
  intro rows
  induction rows with
  | nil => intro i; rfl
  | cons r rest ih =>
      intro i
      cases h : f r.path with
      | true => simp [parseRows, h, ih (i + 1), List.filter_cons]
      | false => simp [parseRows, h, ih (i + 1), List.filter_cons]

/-- Helper: `parseRows` reports one entry error per row whose path does not
exist. -/
theorem parseRows_snd_length (f : String → Bool) :
    ∀ (rows : List ManifestRow) (i : Nat),
      (parseRows f i rows).2.length = (rows.filter (fun r => ! f r.path)).length := by
  intro rows
  induction rows with
  | nil => intro i; rfl
  | cons r rest ih =>
      intro i
      cases h : f r.path with
      | true => simp [parseRows, h, ih (i + 1), List.filter_cons]
      | false => simp [parseRows, h, ih (i + 1), List.filter_cons]

/-- C4: on a manifest whose image-path column is present, `parse` succeeds and
returns exactly the rows whose referenced file exists, in original relative
order, together with one entry error per row whose file does not exist; valid
and invalid rows together account for every row, so an invalid row neither
aborts parsing of later valid rows nor is silently dropped. -/
theorem c4_parse_valid_records_and_entry_errors
    (csv : ManifestCsv) (fileExists : String → Bool)
    (h : csv.hasPathColumn = true) :
    ∃ recs errs,
      ManifestReader.parse csv fileExists = Except.ok (recs, errs) ∧
      recs = csv.rows.filter (fun r => fileExists r.path) ∧
      errs.length = (csv.rows.filter (fun r => ! fileExists r.path)).length ∧
      recs.length + errs.length = csv.rows.length := by
  refine ⟨(parseRows fileExists 0 csv.rows).1, (parseRows fileExists 0 csv.rows).2,
    ?_, parseRows_fst fileExists csv.rows 0, parseRows_snd_length fileExists csv.rows 0, ?_⟩
  · simp [ManifestReader.parse, h]
  · rw [parseRows_fst fileExists csv.rows 0, parseRows_snd_length fileExists csv.rows 0]
    exact (List.length_eq_length_filter_add (l := csv.rows)
      (fun r => fileExists r.path)).symm

/-- Witness for C4: a three-row manifest where the middle row's file is
missing. -/
theorem c4_parse_valid_records_and_entry_errors_witness :
    ∃ recs errs,
      ManifestReader.parse
          { hasPathColumn := true,
            rows := [{ path := "a.tif", meta := [] },
                     { path := "missing.tif", meta := [] },
                     { path := "b.tif", meta := [] }] }
          (fun p => p != "missing.tif") = Except.ok (recs, errs) ∧
      recs = ([{ path := "a.tif", meta := [] },
               { path := "missing.tif", meta := [] },
               { path := "b.tif", meta := [] }] :
        List ManifestRow).filter (fun r => (fun p => p != "missing.tif") r.path) ∧
      errs.length = (([{ path := "a.tif", meta := [] },
                       { path := "missing.tif", meta := [] },
                       { path := "b.tif", meta := [] }] :
        List ManifestRow).filter (fun r => ! (fun p => p != "missing.tif") r.path)).length ∧
      recs.length + errs.length = ([{ path := "a.tif", meta := [] },
                                    { path := "missing.tif", meta := [] },
                                    { path := "b.tif", meta := [] }] :
        List ManifestRow).length :=
  c4_parse_valid_records_and_entry_errors
    { hasPathColumn := true,
      rows := [{ path := "a.tif", meta := [] },
               { path := "missing.tif", meta := [] },
               { path := "b.tif", meta := [] }] }
    (fun p => p != "missing.tif") rfl

/-- C5: for each supported filter identifier, `FilterEngine.apply` succeeds and
returns a buffer with the same width, height, channel count and pixel count as
the input; being a pure function of its two arguments, applying the same
identifier twice to the same input yields identical output. -/
theorem c5_apply_preserves_dims_and_deterministic
    (buf : ImageBuffer) (spec : String)
    (h : spec ∈ ["threshold_li", "threshold_mean"]) :
    (∃ out, FilterEngine.apply buf spec = Except.ok out ∧
      out.width = buf.width ∧ out.height = buf.height ∧
      out.channels = buf.channels ∧ out.data.length = buf.data.length) ∧
    FilterEngine.apply buf spec = FilterEngine.apply buf spec := by
  refine ⟨?_, rfl⟩
  simp only [List.mem_cons, List.mem_singleton, List.not_mem_nil, or_false] at h
  rcases h with h | h <;> subst h
  · exact ⟨binarize buf (liThreshold buf.data), rfl, rfl, rfl, rfl, by simp [binarize]⟩
  · exact ⟨binarize buf (meanOf buf.data), by simp [FilterEngine.apply], rfl, rfl, rfl,
      by simp [binarize]⟩

/-- Witness for C5 on a concrete 2x2 single-channel buffer with
`threshold_mean`. -/
theorem c5_apply_preserves_dims_and_deterministic_witness :
    (∃ out, FilterEngine.apply
        { width := 2, height := 2, channels := 1, data := [0, 10, 200, 30] }
        "threshold_mean" = Except.ok out ∧
      out.width =
        ({ width := 2, height := 2, channels := 1, data := [0, 10, 200, 30] } :
          ImageBuffer).width ∧
      out.height =
        ({ width := 2, height := 2, channels := 1, data := [0, 10, 200, 30] } :
          ImageBuffer).height ∧
      out.channels =
        ({ width := 2, height := 2, channels := 1, data := [0, 10, 200, 30] } :
          ImageBuffer).channels ∧
      out.data.length =
        ({ width := 2, height := 2, channels := 1, data := [0, 10, 200, 30] } :
          ImageBuffer).data.length) ∧
    FilterEngine.apply
        { width := 2, height := 2, channels := 1, data := [0, 10, 200, 30] }
        "threshold_mean" =
      FilterEngine.apply
        { width := 2, height := 2, channels := 1, data := [0, 10, 200, 30] }
        "threshold_mean" :=
  c5_apply_preserves_dims_and_deterministic
    { width := 2, height := 2, channels := 1, data := [0, 10, 200, 30] }
    "threshold_mean" (by decide)

/-- Helper: the progress values of a list of per-record blocks (one status
event then one progress event per record) are exactly the per-record values. -/
theorem progressValues_blocks (g : Nat → String) (f : Nat → ℚ) (l : List Nat) :
    progressValues ((l.map (fun i =>
      [JobEvent.statusEvent (g i), JobEvent.progressEvent (f i)])).flatten) = l.map f := by
  induction l with
  | nil => rfl
  | cons a t ih =>
      simp only [progressValues] at ih
      simp [progressValues, List.filterMap_append, ih]

/-- Helper: per-record blocks contain no terminal event. -/
theorem terminalStates_blocks (g : Nat → String) (f : Nat → ℚ) (l : List Nat) :
    terminalStates ((l.map (fun i =>
      [JobEvent.statusEvent (g i), JobEvent.progressEvent (f i)])).flatten) = [] := by
  induction l with
  | nil => rfl
  | cons a t ih =>
      simp only [terminalStates] at ih
      simp [terminalStates, List.filterMap_append, ih]

/-- Helper: the progress values of a successful build over `n` records are the
percentages `(i + 1) / n * 100` for `i = 0, …, n - 1`, in order. -/
theorem progressValues_buildJobEvents (n : Nat) :
    progressValues (buildJobEvents n) =
      (List.range n).map (fun (i : ℕ) => (100 * (i + 1) : ℚ) / (n : ℚ)) := by
  have hb := progressValues_blocks
      (fun i => "processing image " ++ toString (i + 1) ++ "/" ++ toString n)
      (fun i => (100 * (i + 1) : ℚ) / (n : ℚ)) (List.range n)
  simp only [progressValues] at hb ⊢
  simp [buildJobEvents, List.filterMap_append, hb]

/-- Helper: a successful build emits exactly one terminal event, `Succeeded`. -/
theorem terminalStates_buildJobEvents (n : Nat) :
    terminalStates (buildJobEvents n) = [JobState.Succeeded] := by
  have hb := terminalStates_blocks
      (fun i => "processing image " ++ toString (i + 1) ++ "/" ++ toString n)
      (fun i => (100 * (i + 1) : ℚ) / (n : ℚ)) (List.range n)
  simp only [terminalStates] at hb ⊢
  simp [buildJobEvents, List.filterMap_append, hb]

/-- Helper: the last event of a successful build is the terminal `Succeeded`
event. -/
theorem buildJobEvents_getLast (n : Nat) :
    (buildJobEvents n).getLast? = some (JobEvent.terminalEvent JobState.Succeeded) := by
  unfold buildJobEvents
  exact List.getLast?_concat _

/-- Helper: every progress value of a successful build over a non-empty
manifest is positive. -/
theorem buildJob_progress_pos (n : Nat) (h : 0 < n) :
    ∀ v ∈ progressValues (buildJobEvents n), 0 < v := by
  rw [progressValues_buildJobEvents]
  intro v hv
  simp only [List.mem_map, List.mem_range] at hv
  obtain ⟨i, _, rfl⟩ := hv
  have hn : (0 : ℚ) < n := by exact_mod_cast h
  exact div_pos (by positivity) hn

/-- Helper: the progress sequence of a successful build is monotonically
non-decreasing. -/
theorem buildJob_progress_pairwise (n : Nat) (h : 0 < n) :
    List.Pairwise (· ≤ ·) (progressValues (buildJobEvents n)) := by
  rw [progressValues_buildJobEvents]
  refine List.Pairwise.map _ ?_ (List.pairwise_lt_range n)
  intro a b hab
  have hn : (0 : ℚ) < n := by exact_mod_cast h
  rw [div_le_div_iff_of_pos_right hn]
  have hab' : (a : ℚ) ≤ b := by exact_mod_cast hab.le
  linarith

/-- Helper: the final progress value of a successful build over a non-empty
manifest is exactly 100. -/
theorem buildJob_progress_last (n : Nat) (h : 0 < n) :
    (progressValues (buildJobEvents n)).getLast? = some 100 := by
  rw [progressValues_buildJobEvents]
  cases n with
  | zero => exact absurd h (by decide)
  | succ m =>
      rw [List.range_succ, List.map_append, List.map_cons, List.map_nil,
        List.getLast?_concat]
      have hm : ((m : ℚ) + 1) ≠ 0 := by positivity
      congr 1
      push_cast
      rw [mul_div_assoc, div_self hm, mul_one]

/-- Helper: every progress value before the final one is strictly below 100. -/
theorem buildJob_progress_dropLast (n : Nat) (h : 0 < n) :
    ∀ v ∈ (progressValues (buildJobEvents n)).dropLast, v < 100 := by
  rw [progressValues_buildJobEvents]
  cases n with
  | zero => exact absurd h (by decide)
  | succ m =>
      rw [List.range_succ, List.map_append, List.map_cons, List.map_nil,
        List.dropLast_concat]
      intro v hv
      simp only [List.mem_map, List.mem_range] at hv
      obtain ⟨i, hi, rfl⟩ := hv
      have hm : (0 : ℚ) < ((m : ℚ) + 1) := by positivity
      have hcast : ((m + 1 : ℕ) : ℚ) = (m : ℚ) + 1 := by push_cast; ring
      rw [hcast, div_lt_iff₀ hm]
      have hi' : (i : ℚ) < m := by exact_mod_cast hi
      linarith

/-- C1: a valid `start` over a non-empty manifest succeeds, and its emitted
progress sequence is monotonically non-decreasing, consists of positive values
(so it starts above 0), ends exactly at 100 with every earlier value strictly
below 100, and is followed by exactly one terminal event, `Succeeded`, as the
final event of the job. -/
theorem c1_successful_build_progress
    (before : JobState) (records : List ManifestRow) (k : Int)
    (hk : 0 < k) (hn : 0 < records.length) :
    ∃ evs, (ClusterModelBuilder.start before records k).result = Except.ok evs ∧
      List.Pairwise (· ≤ ·) (progressValues evs) ∧
      (∀ v ∈ progressValues evs, 0 < v) ∧
      (progressValues evs).getLast? = some 100 ∧
      (∀ v ∈ (progressValues evs).dropLast, v < 100) ∧
      terminalStates evs = [JobState.Succeeded] ∧
      evs.getLast? = some (JobEvent.terminalEvent JobState.Succeeded) := by
  refine ⟨buildJobEvents records.length, ?_,
    buildJob_progress_pairwise records.length hn,
    buildJob_progress_pos records.length hn,
    buildJob_progress_last records.length hn,
    buildJob_progress_dropLast records.length hn,
    terminalStates_buildJobEvents records.length,
    buildJobEvents_getLast records.length⟩
  simp [ClusterModelBuilder.start, not_le.mpr hk]

/-- Witness for C1: a concrete two-record build with `n_clusters = 2`. -/
theorem c1_successful_build_progress_witness :
    ∃ evs, (ClusterModelBuilder.start JobState.Idle
        [{ path := "a.tif", meta := [] }, { path := "b.tif", meta := [] }] 2).result =
      Except.ok evs ∧
      List.Pairwise (· ≤ ·) (progressValues evs) ∧
      (∀ v ∈ progressValues evs, 0 < v) ∧
      (progressValues evs).getLast? = some 100 ∧
      (∀ v ∈ (progressValues evs).dropLast, v < 100) ∧
      terminalStates evs = [JobState.Succeeded] ∧
      evs.getLast? = some (JobEvent.terminalEvent JobState.Succeeded) :=
  c1_successful_build_progress JobState.Idle
    [{ path := "a.tif", meta := [] }, { path := "b.tif", meta := [] }] 2
    (by decide) (by decide)

end Turmoric
